import Mathlib

/-!
# SU2 linear finite elements: `CTRIA1` and `CQUAD4`

A shallow embedding of `SU2_CFD/src/element_linear.cpp`.

* Scalars (`double` in the source) are exact rationals: rounding is not
  modelled, decimal literals denote the decimal number written.
* A quotient is an `Option ℚ`: `none` is the non-finite value (an infinity or
  a NaN) an IEEE division by zero produces, and it absorbs every later
  product and sum.
* The elements are two-dimensional (`nDim = 2`, the size the local arrays
  `Jacobian[2][2]`, `ad[2][2]` and `dNiXj[4][2]` are declared with).
* Storage obtained with `new` keeps whatever it held: the contents before a
  call are part of the state the call starts from.
-/

namespace SU2

/-! ## Scalars -/

/-- Division of two scalars, `a/b` in the source. -/
def fdiv (a b : ℚ) : Option ℚ := if b = 0 then none else some (a / b)

/-- Product of a possibly non-finite scalar with a finite one. -/
def fmul (a : Option ℚ) (b : ℚ) : Option ℚ := a.map (fun x => x * b)

/-- Sum of two possibly non-finite scalars. -/
def fadd (a b : Option ℚ) : Option ℚ := a.bind (fun x => b.map (fun y => x + y))

/-! ## Quadrature-point storage -/

/-- Modelled from the spec: the class `CGaussVariable` (gauss_structure.hpp) is
used but not defined in element_linear.cpp. Following the spec's
`QuadraturePoint`, it holds the reference and current Jacobian determinants
(`jacobianDet_ref`, `jacobianDet_curr`) and the reference and current
shape-function gradients (`gradN_ref`, `gradN_curr`), indexed by node and
dimension. -/
structure CGaussVariable (nNodes : ℕ) where
  J_X : ℚ
  J_x : ℚ
  GradNi_Xj : Fin nNodes → Fin 2 → Option ℚ
  GradNi_xj : Fin nNodes → Fin 2 → Option ℚ

namespace CGaussVariable

variable {nNodes : ℕ}

/-- Modelled from the spec: `SetJ_X(val)` stores `jacobianDet_ref`. -/
def SetJ_X (gp : CGaussVariable nNodes) (val : ℚ) : CGaussVariable nNodes :=
  { gp with J_X := val }

/-- Modelled from the spec: `SetJ_x(val)` stores `jacobianDet_curr`. -/
def SetJ_x (gp : CGaussVariable nNodes) (val : ℚ) : CGaussVariable nNodes :=
  { gp with J_x := val }

/-- Modelled from the spec: `SetGradNi_Xj(val, iDim, iNode)` stores the entry
of `gradN_ref` for node `iNode` and dimension `iDim`. -/
def SetGradNi_Xj (gp : CGaussVariable nNodes) (val : Option ℚ) (iDim : Fin 2)
    (iNode : Fin nNodes) : CGaussVariable nNodes :=
  { gp with GradNi_Xj :=
      Function.update gp.GradNi_Xj iNode (Function.update (gp.GradNi_Xj iNode) iDim val) }

/-- Modelled from the spec: `SetGradNi_xj(val, iDim, iNode)` stores the entry
of `gradN_curr` for node `iNode` and dimension `iDim`. -/
def SetGradNi_xj (gp : CGaussVariable nNodes) (val : Option ℚ) (iDim : Fin 2)
    (iNode : Fin nNodes) : CGaussVariable nNodes :=
  { gp with GradNi_xj :=
      Function.update gp.GradNi_xj iNode (Function.update (gp.GradNi_xj iNode) iDim val) }

/-- Modelled from the spec: `GetGradNi_Xj(iNode, iDim)` reads an entry of
`gradN_ref`. -/
def GetGradNi_Xj (gp : CGaussVariable nNodes) (iNode : Fin nNodes) (iDim : Fin 2) :
    Option ℚ :=
  gp.GradNi_Xj iNode iDim

end CGaussVariable

/-- The fatal geometry error of the spec: a Jacobian determinant that is not
positive. -/
inductive GeometryError where
  | nonPositiveJacobian : GeometryError
  deriving DecidableEq, Repr

/-! ## The four-node quadrilateral -/

/-- The data members of `CQUAD4` that the gradient routines read or write. -/
structure CQUAD4 where
  RefCoord : Fin 4 → Fin 2 → ℚ
  CurrentCoord : Fin 4 → Fin 2 → ℚ
  GaussCoord : Fin 4 → Fin 2 → ℚ
  GaussWeight : Fin 4 → ℚ
  GaussPoint : Fin 4 → CGaussVariable 4

namespace CQUAD4

/-- The constructor `CQUAD4::CQUAD4(val_nDim, val_elID, config)`: it allocates the
arrays (`mem` is what the fresh storage holds) and fills in the quadrature
rule. -/
def construct (mem : CQUAD4) : CQUAD4 :=
  { mem with
    GaussCoord := ![![-0.577350269189626, -0.577350269189626],
                    ![0.577350269189626, -0.577350269189626],
                    ![0.577350269189626, 0.577350269189626],
                    ![-0.577350269189626, 0.577350269189626]]
    GaussWeight := ![1.0, 1.0, 1.0, 1.0] }

/-- The table `dNiXj` of derivatives of the shape functions with respect to
the natural coordinates, as filled in at the top of each quadrature-point
iteration. -/
def dNiXj (Xi Eta : ℚ) : Fin 4 → Fin 2 → ℚ :=
  ![![-0.25*(1.0-Eta), -0.25*(1.0-Xi)],
    ![ 0.25*(1.0-Eta), -0.25*(1.0+Xi)],
    ![ 0.25*(1.0+Eta),  0.25*(1.0+Xi)],
    ![-0.25*(1.0+Eta),  0.25*(1.0-Xi)]]

/-- The loop nest "Jacobian transformation": entry `[iDim][jDim]` starts at
`0.0` and accumulates `Coord[iNode][jDim]*dNiXj[iNode][iDim]` over the nodes. -/
def jacobianLoop (Coord dN : Fin 4 → Fin 2 → ℚ) : Fin 2 → Fin 2 → ℚ :=
  fun iDim jDim =>
    [0, 1, 2, 3].foldl (fun acc iNode => acc + Coord iNode jDim * dN iNode iDim) 0

/-- The block "Adjoint to Jacobian". -/
def adjoint (Jacobian : Fin 2 → Fin 2 → ℚ) : Fin 2 → Fin 2 → ℚ :=
  ![![Jacobian 1 1, -Jacobian 0 1],
    ![-Jacobian 1 0, Jacobian 0 0]]

/-- The line "Determinant of Jacobian", computed from the adjoint. -/
def detOfAdjoint (ad : Fin 2 → Fin 2 → ℚ) : ℚ :=
  ad 0 0 * ad 1 1 - ad 0 1 * ad 1 0

/-- The loop nest "Jacobian inverse": every adjoint entry divided by the
determinant. -/
def inverseLoop (ad : Fin 2 → Fin 2 → ℚ) (detJac : ℚ) : Fin 2 → Fin 2 → Option ℚ :=
  fun iDim jDim => fdiv (ad iDim jDim) detJac

/-- The innermost loop of "Derivatives with respect to global coordinates":
`GradNi_Xj` starts at `0.0` and accumulates `Jacobian[iDim][jDim]*dNiXj[iNode][jDim]`. -/
def gradLoop (inv : Fin 2 → Fin 2 → Option ℚ) (dN : Fin 4 → Fin 2 → ℚ)
    (iNode : Fin 4) (iDim : Fin 2) : Option ℚ :=
  [0, 1].foldl (fun acc jDim => fadd acc (fmul (inv iDim jDim) (dN iNode jDim))) (some 0)

/-- One iteration of the quadrature-point loop of `CQUAD4::ComputeGrad_Linear`. -/
def linearStep (e : CQUAD4) (iGauss : Fin 4) : CQUAD4 :=
  let Xi := e.GaussCoord iGauss 0
  let Eta := e.GaussCoord iGauss 1
  let dN := dNiXj Xi Eta
  let Jacobian := jacobianLoop e.RefCoord dN
  let ad := adjoint Jacobian
  let detJac := detOfAdjoint ad
  let gp := (e.GaussPoint iGauss).SetJ_X detJac
  let inv := inverseLoop ad detJac
  let gp := [0, 1, 2, 3].foldl (fun gp iNode =>
    [0, 1].foldl (fun gp iDim => gp.SetGradNi_Xj (gradLoop inv dN iNode iDim) iDim iNode) gp) gp
  { e with GaussPoint := Function.update e.GaussPoint iGauss gp }

/-- The member function `CQUAD4::ComputeGrad_Linear`: the loop over the
`nGaussPoints = 4` quadrature points. -/
def ComputeGrad_Linear (e : CQUAD4) : CQUAD4 :=
  [0, 1, 2, 3].foldl linearStep e

/-- One iteration of the quadrature-point loop of `CQUAD4::ComputeGrad_NonLinear`.
Both `Jac_Ref` and `Jac_Curr` accumulate `RefCoord[iNode][jDim]*dNiXj[iNode][iDim]`.
The line that prints the two determinants to `cout` changes no data member and
is left out. -/
def nonLinearStep (e : CQUAD4) (iGauss : Fin 4) : CQUAD4 :=
  let Xi := e.GaussCoord iGauss 0
  let Eta := e.GaussCoord iGauss 1
  let dN := dNiXj Xi Eta
  let Jac_Ref := jacobianLoop e.RefCoord dN
  let Jac_Curr := jacobianLoop e.RefCoord dN
  let ad_Ref := adjoint Jac_Ref
  let ad_Curr := adjoint Jac_Curr
  let detJac_Ref := detOfAdjoint ad_Ref
  let detJac_Curr := detOfAdjoint ad_Curr
  let gp := ((e.GaussPoint iGauss).SetJ_X detJac_Ref).SetJ_x detJac_Curr
  let inv_Ref := inverseLoop ad_Ref detJac_Ref
  let inv_Curr := inverseLoop ad_Curr detJac_Curr
  let gp := [0, 1, 2, 3].foldl (fun gp iNode =>
    [0, 1].foldl (fun gp iDim =>
      (gp.SetGradNi_Xj (gradLoop inv_Ref dN iNode iDim) iDim iNode).SetGradNi_xj
        (gradLoop inv_Curr dN iNode iDim) iDim iNode) gp) gp
  { e with GaussPoint := Function.update e.GaussPoint iGauss gp }

/-- The member function `CQUAD4::ComputeGrad_NonLinear`. -/
def ComputeGrad_NonLinear (e : CQUAD4) : CQUAD4 :=
  [0, 1, 2, 3].foldl nonLinearStep e

/-- A call of `ComputeGrad_Linear` seen with its way of ending: the body has
no `throw`, no `exit` and no test of the determinant, so every call runs to
its end and hands back the updated element. -/
def ComputeGrad_Linear_call (e : CQUAD4) : Except GeometryError CQUAD4 :=
  Except.ok (ComputeGrad_Linear e)

/-- A call of `ComputeGrad_NonLinear` seen with its way of ending: as for the
linear routine, nothing in the body can stop the call. -/
def ComputeGrad_NonLinear_call (e : CQUAD4) : Except GeometryError CQUAD4 :=
  Except.ok (ComputeGrad_NonLinear e)

/-! ### Quantities the claims speak of -/

/-- The isoparametric Jacobian of the spec, `J[i][j] = Σ_n Coord[n][j] * dN_n/dξ_i`. -/
def isoJacobian (Coord dN : Fin 4 → Fin 2 → ℚ) (i j : Fin 2) : ℚ :=
  ∑ n : Fin 4, Coord n j * dN n i

/-- The determinant `J00*J11 - J01*J10` of a 2x2 matrix. -/
def det2 (J : Fin 2 → Fin 2 → ℚ) : ℚ := J 0 0 * J 1 1 - J 0 1 * J 1 0

/-- The natural derivatives at quadrature point `g` of element `e`. -/
def dNAt (e : CQUAD4) (g : Fin 4) : Fin 4 → Fin 2 → ℚ :=
  dNiXj (e.GaussCoord g 0) (e.GaussCoord g 1)

end CQUAD4

/-! ## The three-node triangle -/

/-- The data members of `CTRIA1` that the gradient routines and the gradient
accessor read or write. -/
structure CTRIA1 where
  RefCoord : Fin 3 → Fin 2 → ℚ
  CurrentCoord : Fin 3 → Fin 2 → ℚ
  GaussCoord : Fin 1 → Fin 2 → ℚ
  GaussWeight : Fin 1 → ℚ
  GaussPoint : Fin 1 → CGaussVariable 3

namespace CTRIA1

/-- The constructor `CTRIA1::CTRIA1(val_nDim, val_elID, config)`: it allocates the
arrays (`mem` is what the fresh storage holds) and fills in the one-point
quadrature rule. -/
def construct (mem : CTRIA1) : CTRIA1 :=
  { mem with
    GaussCoord := ![![0.333333333333333, 0.333333333333333]]
    GaussWeight := ![0.5] }

/-- The member function `CTRIA1::ComputeGrad_Linear`: its body is empty. -/
def ComputeGrad_Linear (e : CTRIA1) : CTRIA1 := e

/-- The member function `CTRIA1::ComputeGrad_NonLinear`: its body is empty. -/
def ComputeGrad_NonLinear (e : CTRIA1) : CTRIA1 := e

/-- The accessor `CTRIA1::GetGradNi_X(iNode, iGauss, iDim)`. -/
def GetGradNi_X (e : CTRIA1) (iNode : Fin 3) (iGauss : Fin 1) (iDim : Fin 2) : Option ℚ :=
  (e.GaussPoint iGauss).GetGradNi_Xj iNode iDim

/-- The area the single quadrature point yields: quadrature weight times the
stored reference Jacobian determinant. -/
def quadratureArea (e : CTRIA1) : ℚ :=
  e.GaussWeight 0 * (e.GaussPoint 0).J_X

end CTRIA1

/-! ## Geometry the claims speak of -/

/-- Twice the signed area of the triangle `P`, `C`, `N` (positive when the three
points turn counter-clockwise). -/
def cross2 (P C N : Fin 2 → ℚ) : ℚ :=
  (C 0 - P 0) * (N 1 - C 1) - (N 0 - C 0) * (C 1 - P 1)

/-- A strictly convex quadrilateral with counter-clockwise nodes: at each corner
the triangle previous node, corner, next node has positive signed area. -/
def StrictlyConvexCCW (X : Fin 4 → Fin 2 → ℚ) : Prop :=
  0 < cross2 (X 3) (X 0) (X 1) ∧ 0 < cross2 (X 0) (X 1) (X 2) ∧
  0 < cross2 (X 1) (X 2) (X 3) ∧ 0 < cross2 (X 2) (X 3) (X 0)

/-! ## Concrete elements -/

/-- A quadrature point whose storage is zero-filled. -/
def zeroGauss (nNodes : ℕ) : CGaussVariable nNodes :=
  { J_X := 0, J_x := 0, GradNi_Xj := fun _ _ => some 0, GradNi_xj := fun _ _ => some 0 }

/-- Zero-filled storage for a quadrilateral. -/
def zeroQUAD4 : CQUAD4 :=
  { RefCoord := fun _ _ => 0, CurrentCoord := fun _ _ => 0, GaussCoord := fun _ _ => 0,
    GaussWeight := fun _ => 0, GaussPoint := fun _ => zeroGauss 4 }

/-- A constructed quadrilateral with the given reference and current
coordinates stored. -/
def quadOf (Ref Cur : Fin 4 → Fin 2 → ℚ) : CQUAD4 :=
  { CQUAD4.construct zeroQUAD4 with RefCoord := Ref, CurrentCoord := Cur }

/-- The unit square, nodes counter-clockwise from the origin. -/
def unitSquare : Fin 4 → Fin 2 → ℚ := ![![0, 0], ![1, 0], ![1, 1], ![0, 1]]

/-- The unit square with its nodes in clockwise order. -/
def clockwiseSquare : Fin 4 → Fin 2 → ℚ := ![![0, 0], ![0, 1], ![1, 1], ![1, 0]]

/-- The square of side two, nodes counter-clockwise from the origin. -/
def doubleSquare : Fin 4 → Fin 2 → ℚ := ![![0, 0], ![2, 0], ![2, 2], ![0, 2]]

/-- A trapezoid, nodes counter-clockwise. -/
def trapezoid : Fin 4 → Fin 2 → ℚ := ![![0, 0], ![4, 0], ![3, 2], ![1, 2]]

/-- All four nodes at the point (1, 2). -/
def collapsedQuad : CQUAD4 := quadOf (fun _ => ![1, 2]) (fun _ => ![1, 2])

/-- The unit square with clockwise nodes, undeformed. -/
def clockwiseQuad : CQUAD4 := quadOf clockwiseSquare clockwiseSquare

/-- The unit square stretched to twice its size in the current configuration. -/
def stretchedQuad : CQUAD4 := quadOf unitSquare doubleSquare

/-- The undeformed trapezoid. -/
def trapezoidQuad : CQUAD4 := quadOf trapezoid trapezoid

/-- The constructed triangle with reference coordinates (0,0), (1,0), (0,1),
its quadrature-point storage zero-filled. -/
def unitTriangle : CTRIA1 :=
  { CTRIA1.construct
      { RefCoord := fun _ _ => 0, CurrentCoord := fun _ _ => 0, GaussCoord := fun _ _ => 0,
        GaussWeight := fun _ => 0, GaussPoint := fun _ => zeroGauss 3 } with
    RefCoord := ![![0, 0], ![1, 0], ![0, 1]]
    CurrentCoord := ![![0, 0], ![1, 0], ![0, 1]] }

/-! ## Further quantities the claims speak of -/

namespace CQUAD4

/-- The number of nodes the constructor assigns, `nNodes = 4`. -/
def nNodes : ℕ := 4

/-- The number of quadrature points the constructor assigns, `nGaussPoints = 4`. -/
def nGaussPoints : ℕ := 4

/-- The natural coordinates of the four nodes, (-1,-1), (1,-1), (1,1), (-1,1). -/
def nodeNatural : Fin 4 → Fin 2 → ℚ := ![![-1, -1], ![1, -1], ![1, 1], ![-1, 1]]

/-- The bilinear shape function of node `i`,
`N_i = (1 + xi_i*xi)*(1 + eta_i*eta)/4`. -/
def shapeN (i : Fin 4) (xi eta : ℚ) : ℚ :=
  (1 + nodeNatural i 0 * xi) * (1 + nodeNatural i 1 * eta) / 4

/-- The nodal coordinates turned by the planar rotation `[[c, -s], [s, c]]`. -/
def rotate (c s : ℚ) (X : Fin 4 → Fin 2 → ℚ) : Fin 4 → Fin 2 → ℚ :=
  fun n => ![c * X n 0 - s * X n 1, s * X n 0 + c * X n 1]

/-- The signed area of the parallelogram spanned at node 0 by the edges to
node 1 and to node 3. -/
def parallelogramArea (X : Fin 4 → Fin 2 → ℚ) : ℚ :=
  (X 1 0 - X 0 0) * (X 3 1 - X 0 1) - (X 3 0 - X 0 0) * (X 1 1 - X 0 1)

end CQUAD4

namespace CTRIA1

/-- The number of nodes the constructor assigns, `nNodes = 3`. -/
def nNodes : ℕ := 3

/-- The number of quadrature points the constructor assigns, `nGaussPoints = 1`. -/
def nGaussPoints : ℕ := 1

end CTRIA1

/-- The "not yet computed" condition of the spec for the gradient accessor. -/
inductive AccessError where
  | notYetComputed : AccessError
  deriving DecidableEq, Repr

/-- A call of `CTRIA1::GetGradNi_X` seen with its way of ending: the body is the
single `return` of the stored entry, with no test and no state to test, so
every call hands back a value. -/
def CTRIA1.GetGradNi_X_call (e : CTRIA1) (iNode : Fin 3) (iGauss : Fin 1) (iDim : Fin 2) :
    Except AccessError (Option ℚ) :=
  Except.ok (e.GetGradNi_X iNode iGauss iDim)

/-- A parallelogram, nodes counter-clockwise. -/
def slantedParallelogram : Fin 4 → Fin 2 → ℚ := ![![0, 0], ![2, 0], ![3, 1], ![1, 1]]

/-- The undeformed parallelogram. -/
def parallelogramQuad : CQUAD4 := quadOf slantedParallelogram slantedParallelogram

/-! ## Array accesses of the quadrilateral routines -/

namespace CQUAD4

/-- The arrays indexed in `ComputeGrad_Linear` and `ComputeGrad_NonLinear`: the
data members allocated by the constructor and the local arrays of the two
routines. -/
inductive ArrayName where
  | GaussCoord | RefCoord | GaussPoint
  | Jacobian | ad | dNiXj
  | Jac_Ref | Jac_Curr | ad_Ref | ad_Curr
  deriving DecidableEq, Repr

/-- One indexing expression: the array and the indices applied to it. -/
structure Access where
  arr : ArrayName
  idx : List ℕ
  deriving DecidableEq, Repr

/-- The extents of each array: `GaussPoint` is `new CGaussVariable*[nGaussPoints]`,
`RefCoord` is `nNodes` rows of `new double[nDim]`, `GaussCoord` is `nGaussPoints`
rows of `new double[nDim]`; the locals are declared `[2][2]` and `[4][2]`. -/
def extent (nDim : ℕ) : ArrayName → List ℕ
  | ArrayName.GaussCoord => [nGaussPoints, nDim]
  | ArrayName.RefCoord => [nNodes, nDim]
  | ArrayName.GaussPoint => [nGaussPoints]
  | ArrayName.Jacobian => [2, 2]
  | ArrayName.ad => [2, 2]
  | ArrayName.dNiXj => [4, 2]
  | ArrayName.Jac_Ref => [2, 2]
  | ArrayName.Jac_Curr => [2, 2]
  | ArrayName.ad_Ref => [2, 2]
  | ArrayName.ad_Curr => [2, 2]

/-- Every index lies below the extent of its dimension. -/
def indicesBelow : List ℕ → List ℕ → Bool
  | [], [] => true
  | i :: is, n :: ns => decide (i < n) && indicesBelow is ns
  | _, _ => false

/-- An access is within the bounds of its array. -/
def Access.inBounds (nDim : ℕ) (a : Access) : Bool :=
  indicesBelow a.idx (extent nDim a.arr)

/-- The eight assignments that fill the table `dNiXj`. -/
def accesses_dNiXj : List Access :=
  [⟨ArrayName.dNiXj, [0, 0]⟩, ⟨ArrayName.dNiXj, [0, 1]⟩,
   ⟨ArrayName.dNiXj, [1, 0]⟩, ⟨ArrayName.dNiXj, [1, 1]⟩,
   ⟨ArrayName.dNiXj, [2, 0]⟩, ⟨ArrayName.dNiXj, [2, 1]⟩,
   ⟨ArrayName.dNiXj, [3, 0]⟩, ⟨ArrayName.dNiXj, [3, 1]⟩]

/-- The block "Adjoint to Jacobian" followed by the determinant line, for the
adjoint array `a` and the Jacobian array `J`. -/
def accesses_adjoint (a J : ArrayName) : List Access :=
  [⟨a, [0, 0]⟩, ⟨J, [1, 1]⟩, ⟨a, [0, 1]⟩, ⟨J, [0, 1]⟩,
   ⟨a, [1, 0]⟩, ⟨J, [1, 0]⟩, ⟨a, [1, 1]⟩, ⟨J, [0, 0]⟩,
   ⟨a, [0, 0]⟩, ⟨a, [1, 1]⟩, ⟨a, [0, 1]⟩, ⟨a, [1, 0]⟩]

/-- The indexing expressions evaluated by one iteration of the quadrature-point
loop of `ComputeGrad_Linear`, in the order of the source, for an element
constructed with `nDim`. -/
def accesses_linearStep (nDim iGauss : ℕ) : List Access :=
  [⟨ArrayName.GaussCoord, [iGauss, 0]⟩, ⟨ArrayName.GaussCoord, [iGauss, 1]⟩] ++
  accesses_dNiXj ++
  ((List.range 2).flatMap fun iDim => (List.range 2).flatMap fun jDim =>
    [⟨ArrayName.Jacobian, [iDim, jDim]⟩] ++
    (List.range 4).flatMap fun iNode =>
      [⟨ArrayName.Jacobian, [iDim, jDim]⟩, ⟨ArrayName.Jacobian, [iDim, jDim]⟩,
       ⟨ArrayName.RefCoord, [iNode, jDim]⟩, ⟨ArrayName.dNiXj, [iNode, iDim]⟩]) ++
  accesses_adjoint ArrayName.ad ArrayName.Jacobian ++
  [⟨ArrayName.GaussPoint, [iGauss]⟩] ++
  ((List.range 2).flatMap fun iDim => (List.range 2).flatMap fun jDim =>
    [⟨ArrayName.Jacobian, [iDim, jDim]⟩, ⟨ArrayName.ad, [iDim, jDim]⟩]) ++
  ((List.range 4).flatMap fun iNode => (List.range nDim).flatMap fun iDim =>
    ((List.range nDim).flatMap fun jDim =>
      [⟨ArrayName.Jacobian, [iDim, jDim]⟩, ⟨ArrayName.dNiXj, [iNode, jDim]⟩]) ++
    [⟨ArrayName.GaussPoint, [iGauss]⟩])

/-- The indexing expressions evaluated by `ComputeGrad_Linear`. -/
def accesses_Linear (nDim : ℕ) : List Access :=
  (List.range nGaussPoints).flatMap (accesses_linearStep nDim)

/-- The indexing expressions evaluated by one iteration of the quadrature-point
loop of `ComputeGrad_NonLinear`, in the order of the source. -/
def accesses_nonLinearStep (nDim iGauss : ℕ) : List Access :=
  [⟨ArrayName.GaussCoord, [iGauss, 0]⟩, ⟨ArrayName.GaussCoord, [iGauss, 1]⟩] ++
  accesses_dNiXj ++
  ((List.range 2).flatMap fun iDim => (List.range 2).flatMap fun jDim =>
    [⟨ArrayName.Jac_Ref, [iDim, jDim]⟩, ⟨ArrayName.Jac_Curr, [iDim, jDim]⟩] ++
    (List.range 4).flatMap fun iNode =>
      [⟨ArrayName.Jac_Ref, [iDim, jDim]⟩, ⟨ArrayName.Jac_Ref, [iDim, jDim]⟩,
       ⟨ArrayName.RefCoord, [iNode, jDim]⟩, ⟨ArrayName.dNiXj, [iNode, iDim]⟩,
       ⟨ArrayName.Jac_Curr, [iDim, jDim]⟩, ⟨ArrayName.Jac_Curr, [iDim, jDim]⟩,
       ⟨ArrayName.RefCoord, [iNode, jDim]⟩, ⟨ArrayName.dNiXj, [iNode, iDim]⟩]) ++
  accesses_adjoint ArrayName.ad_Ref ArrayName.Jac_Ref ++
  accesses_adjoint ArrayName.ad_Curr ArrayName.Jac_Curr ++
  [⟨ArrayName.GaussPoint, [iGauss]⟩, ⟨ArrayName.GaussPoint, [iGauss]⟩] ++
  ((List.range 2).flatMap fun iDim => (List.range 2).flatMap fun jDim =>
    [⟨ArrayName.Jac_Ref, [iDim, jDim]⟩, ⟨ArrayName.ad_Ref, [iDim, jDim]⟩,
     ⟨ArrayName.Jac_Curr, [iDim, jDim]⟩, ⟨ArrayName.ad_Curr, [iDim, jDim]⟩]) ++
  ((List.range 4).flatMap fun iNode => (List.range nDim).flatMap fun iDim =>
    ((List.range nDim).flatMap fun jDim =>
      [⟨ArrayName.Jac_Ref, [iDim, jDim]⟩, ⟨ArrayName.dNiXj, [iNode, jDim]⟩,
       ⟨ArrayName.Jac_Curr, [iDim, jDim]⟩, ⟨ArrayName.dNiXj, [iNode, jDim]⟩]) ++
    [⟨ArrayName.GaussPoint, [iGauss]⟩, ⟨ArrayName.GaussPoint, [iGauss]⟩])

/-- The indexing expressions evaluated by `ComputeGrad_NonLinear`. -/
def accesses_NonLinear (nDim : ℕ) : List Access :=
  (List.range nGaussPoints).flatMap (accesses_nonLinearStep nDim)

end CQUAD4

/-! ## The unsteady branch of `SU2_SOL`

A shallow embedding of the non-FSI unsteady branch of `main` in
`SU2_SOL/src/SU2_SOL.cpp` (the block entered when `GetWrt_Unsteady()` holds).
The values the `CConfig` getters return are inputs; a pointer of
`solver_container` is recorded as `true` when it is not `NULL`; calling
`LoadRestart` through a `NULL` pointer ends the run with a fault. -/

namespace SU2_SOL

/-- The values of `GetUnsteady_Simulation()`; the enumeration is declared in
option_structure.hpp, and the branch only compares with `DT_STEPPING_1ST` and
`DT_STEPPING_2ND`. -/
inductive UnsteadyKind where
  | STEADY | TIME_STEPPING | DT_STEPPING_1ST | DT_STEPPING_2ND | HARMONIC_BALANCE
  deriving DecidableEq, Repr

/-- What the getters of `config_container[ZONE_0]` return in the branch. The
restart iteration is taken non-negative and the write frequencies positive. -/
structure Config where
  Restart : Bool
  Unst_RestartIter : ℕ
  nExtIter : ℕ
  Wrt_Sol_Freq : ℕ
  Wrt_Sol_Freq_DualTime : ℕ
  Unsteady_Simulation : UnsteadyKind
  Delta_UnstTime : ℚ
  Total_UnstTime : ℚ

/-- The variables of the branch: the iteration counter, the stop flag, the array
`SolutionInstantiated` and, for each zone, whether `solver_container[iZone]` is
not `NULL`. -/
structure LoopState where
  iExtIter : ℕ
  StopCalc : Bool
  SolutionInstantiated : ℕ → Bool
  solver_container : ℕ → Bool

/-- A member function called through a `NULL` solver pointer, with the iteration
and the zone at which it happens. -/
structure Fault where
  iExtIter : ℕ
  iZone : ℕ
  deriving DecidableEq, Repr

/-- The test `Unsteady_Simulation == DT_STEPPING_1ST || ... == DT_STEPPING_2ND`. -/
def dualTime (c : Config) : Bool :=
  c.Unsteady_Simulation == UnsteadyKind.DT_STEPPING_1ST ||
    c.Unsteady_Simulation == UnsteadyKind.DT_STEPPING_2ND

/-- The condition of the `if` that guards the merging of a time step. -/
def writeCondition (c : Config) (iExtIter : ℕ) (StopCalc : Bool) : Bool :=
  (iExtIter + 1 == c.nExtIter) ||
  ((iExtIter % c.Wrt_Sol_Freq == 0) && (iExtIter != 0) && !(dualTime c)) ||
  StopCalc ||
  (dualTime c && ((iExtIter == 0) || (iExtIter % c.Wrt_Sol_Freq_DualTime == 0)))

/-- The second operand of the `if` that guards `new CBaselineSolver`:
`iExtIter == 0 || (Restart && (iExtIter == Unst_RestartIter ||
iExtIter % Wrt_Sol_Freq_DualTime == 0 || iExtIter+1 == nExtIter))`. -/
def instantiateCondition (c : Config) (iExtIter : ℕ) : Bool :=
  iExtIter == 0 ||
    (c.Restart && (iExtIter == c.Unst_RestartIter ||
      iExtIter % c.Wrt_Sol_Freq_DualTime == 0 ||
      iExtIter + 1 == c.nExtIter))

/-- The body of the zone loop for one zone: instantiate the solver when the
guard holds, then call `LoadRestart` through `solver_container[iZone]`. -/
def zoneStep (c : Config) (st : LoopState) (iZone : ℕ) : Except Fault LoopState :=
  let st :=
    if st.SolutionInstantiated iZone == false && instantiateCondition c st.iExtIter then
      { st with
        solver_container := Function.update st.solver_container iZone true
        SolutionInstantiated := Function.update st.SolutionInstantiated iZone true }
    else st
  if st.solver_container iZone then Except.ok st
  else Except.error { iExtIter := st.iExtIter, iZone := iZone }

/-- The loop `for (iZone = 0; iZone < nZone; iZone++)`. -/
def zoneLoop (c : Config) (nZone : ℕ) (st : LoopState) : Except Fault LoopState :=
  (List.range nZone).foldlM (zoneStep c) st

/-- The loop `while (iExtIter < nExtIter)`, with `fuel` bounding the number of
iterations: each iteration raises `iExtIter` by one. -/
def whileLoop (c : Config) (nZone : ℕ) : ℕ → LoopState → Except Fault LoopState
  | 0, st => Except.ok st
  | fuel + 1, st =>
    if st.iExtIter < c.nExtIter then
      let StopCalc : Bool :=
        if ((st.iExtIter : ℚ) + 1) * c.Delta_UnstTime ≥ c.Total_UnstTime then true
        else st.StopCalc
      let st := { st with StopCalc := StopCalc }
      match (if writeCondition c st.iExtIter StopCalc then zoneLoop c nZone st
        else Except.ok st) with
      | Except.error f => Except.error f
      | Except.ok st =>
        let st := { st with iExtIter := st.iExtIter + 1 }
        if StopCalc then Except.ok st else whileLoop c nZone fuel st
    else Except.ok st

/-- The non-FSI unsteady branch: every `solver_container[iZone]` is `NULL` and
every `SolutionInstantiated[iZone]` is `false` on entry, `iExtIter` starts at
`Unst_RestartIter` on a restart and at 0 otherwise, and the loop runs for at
most `nExtIter` iterations. -/
def unsteadyBranch (c : Config) (nZone : ℕ) : Except Fault LoopState :=
  whileLoop c nZone c.nExtIter
    { iExtIter := if c.Restart then c.Unst_RestartIter else 0
      StopCalc := false
      SolutionInstantiated := fun _ => false
      solver_container := fun _ => false }

/-- A time-stepping run of three iterations without restart, written every
iteration, far from its total time. -/
def timeSteppingConfig : Config :=
  { Restart := false, Unst_RestartIter := 0, nExtIter := 3, Wrt_Sol_Freq := 1,
    Wrt_Sol_Freq_DualTime := 1, Unsteady_Simulation := UnsteadyKind.TIME_STEPPING,
    Delta_UnstTime := 1, Total_UnstTime := 100 }

end SU2_SOL

/-! ## Auxiliary facts about the quadrilateral routines -/

namespace CQUAD4

/-- The determinant `ComputeGrad_Linear` computes at quadrature point `g`. -/
def detRefAt (e : CQUAD4) (g : Fin 4) : ℚ :=
  detOfAdjoint (adjoint (jacobianLoop e.RefCoord (dNAt e g)))

/-- The gradient entry `ComputeGrad_Linear` computes at quadrature point `g`
for node `i` and dimension `d`. -/
def gradRefAt (e : CQUAD4) (g : Fin 4) (i : Fin 4) (d : Fin 2) : Option ℚ :=
  gradLoop (inverseLoop (adjoint (jacobianLoop e.RefCoord (dNAt e g))) (detRefAt e g))
    (dNAt e g) i d

/-- The finite gradient entry computed where the determinant is not zero. -/
def gradValue (X dN : Fin 4 → Fin 2 → ℚ) (i : Fin 4) (d : Fin 2) : ℚ :=
  adjoint (isoJacobian X dN) d 0 / det2 (isoJacobian X dN) * dN i 0 +
    adjoint (isoJacobian X dN) d 1 / det2 (isoJacobian X dN) * dN i 1

theorem linearStep_GaussPoint (e : CQUAD4) (g h : Fin 4) :
    (linearStep e g).GaussPoint h =
      if h = g then
        { J_X := detRefAt e g
          J_x := (e.GaussPoint g).J_x
          GradNi_Xj := fun i d => gradRefAt e g i d
          GradNi_xj := (e.GaussPoint g).GradNi_xj }
      else e.GaussPoint h := by
  by_cases hg : h = g
  · subst hg
    simp only [linearStep, Function.update_same, if_true, List.foldl,
      CGaussVariable.SetGradNi_Xj, CGaussVariable.SetJ_X]
    congr 1
    funext i d
    fin_cases i <;> fin_cases d <;> simp [Function.update, gradRefAt, detRefAt, dNAt]
  · simp [linearStep, Function.update_noteq hg, hg]

@[simp] theorem linearStep_RefCoord (e : CQUAD4) (g : Fin 4) :
    (linearStep e g).RefCoord = e.RefCoord := rfl

@[simp] theorem linearStep_CurrentCoord (e : CQUAD4) (g : Fin 4) :
    (linearStep e g).CurrentCoord = e.CurrentCoord := rfl

@[simp] theorem linearStep_GaussCoord (e : CQUAD4) (g : Fin 4) :
    (linearStep e g).GaussCoord = e.GaussCoord := rfl

@[simp] theorem linearStep_GaussWeight (e : CQUAD4) (g : Fin 4) :
    (linearStep e g).GaussWeight = e.GaussWeight := rfl

theorem detRefAt_congr {a b : CQUAD4} (hr : a.RefCoord = b.RefCoord)
    (hg : a.GaussCoord = b.GaussCoord) (g : Fin 4) : detRefAt a g = detRefAt b g := by
  simp only [detRefAt, dNAt, hr, hg]

theorem gradRefAt_congr {a b : CQUAD4} (hr : a.RefCoord = b.RefCoord)
    (hg : a.GaussCoord = b.GaussCoord) (g : Fin 4) : gradRefAt a g = gradRefAt b g := by
  funext i d
  simp only [gradRefAt, detRefAt, dNAt, hr, hg]

/-- What `ComputeGrad_Linear` leaves in quadrature point `g`. -/
theorem ComputeGrad_Linear_GaussPoint (e : CQUAD4) (g : Fin 4) :
    (ComputeGrad_Linear e).GaussPoint g =
      { J_X := detRefAt e g
        J_x := (e.GaussPoint g).J_x
        GradNi_Xj := fun i d => gradRefAt e g i d
        GradNi_xj := (e.GaussPoint g).GradNi_xj } := by
  simp only [ComputeGrad_Linear, List.foldl]
  fin_cases g <;>
    simp [linearStep_GaussPoint, detRefAt_congr (linearStep_RefCoord _ _) (linearStep_GaussCoord _ _),
      gradRefAt_congr (linearStep_RefCoord _ _) (linearStep_GaussCoord _ _)]

theorem nonLinearStep_GaussPoint (e : CQUAD4) (g h : Fin 4) :
    (nonLinearStep e g).GaussPoint h =
      if h = g then
        { J_X := detRefAt e g
          J_x := detRefAt e g
          GradNi_Xj := fun i d => gradRefAt e g i d
          GradNi_xj := fun i d => gradRefAt e g i d }
      else e.GaussPoint h := by
  by_cases hg : h = g
  · subst hg
    simp only [nonLinearStep, Function.update_same, if_true, List.foldl,
      CGaussVariable.SetGradNi_Xj, CGaussVariable.SetGradNi_xj, CGaussVariable.SetJ_X,
      CGaussVariable.SetJ_x]
    congr 1
    · funext i d
      fin_cases i <;> fin_cases d <;> simp [Function.update, gradRefAt, detRefAt, dNAt]
    · funext i d
      fin_cases i <;> fin_cases d <;> simp [Function.update, gradRefAt, detRefAt, dNAt]
  · simp [nonLinearStep, Function.update_noteq hg, hg]

@[simp] theorem nonLinearStep_RefCoord (e : CQUAD4) (g : Fin 4) :
    (nonLinearStep e g).RefCoord = e.RefCoord := rfl

@[simp] theorem nonLinearStep_CurrentCoord (e : CQUAD4) (g : Fin 4) :
    (nonLinearStep e g).CurrentCoord = e.CurrentCoord := rfl

@[simp] theorem nonLinearStep_GaussCoord (e : CQUAD4) (g : Fin 4) :
    (nonLinearStep e g).GaussCoord = e.GaussCoord := rfl

@[simp] theorem nonLinearStep_GaussWeight (e : CQUAD4) (g : Fin 4) :
    (nonLinearStep e g).GaussWeight = e.GaussWeight := rfl

/-- What `ComputeGrad_NonLinear` leaves in quadrature point `g`. -/
theorem ComputeGrad_NonLinear_GaussPoint (e : CQUAD4) (g : Fin 4) :
    (ComputeGrad_NonLinear e).GaussPoint g =
      { J_X := detRefAt e g
        J_x := detRefAt e g
        GradNi_Xj := fun i d => gradRefAt e g i d
        GradNi_xj := fun i d => gradRefAt e g i d } := by
  simp only [ComputeGrad_NonLinear, List.foldl]
  fin_cases g <;>
    simp [nonLinearStep_GaussPoint,
      detRefAt_congr (nonLinearStep_RefCoord _ _) (nonLinearStep_GaussCoord _ _),
      gradRefAt_congr (nonLinearStep_RefCoord _ _) (nonLinearStep_GaussCoord _ _)]

/-- The determinant of the adjoint is the determinant of the matrix. -/
theorem detOfAdjoint_adjoint (J : Fin 2 → Fin 2 → ℚ) : detOfAdjoint (adjoint J) = det2 J := by
  simp [detOfAdjoint, adjoint, det2]
  ring

/-- The accumulation loop computes the sum over the four nodes. -/
theorem jacobianLoop_eq_isoJacobian (Coord dN : Fin 4 → Fin 2 → ℚ) :
    jacobianLoop Coord dN = isoJacobian Coord dN := by
  funext i j
  simp [jacobianLoop, isoJacobian, Fin.sum_univ_four]

/-- The contraction loop when the determinant is not zero. -/
theorem gradLoop_of_ne_zero (ad : Fin 2 → Fin 2 → ℚ) (detJac : ℚ) (dN : Fin 4 → Fin 2 → ℚ)
    (i : Fin 4) (d : Fin 2) (h : detJac ≠ 0) :
    gradLoop (inverseLoop ad detJac) dN i d =
      some (ad d 0 / detJac * dN i 0 + ad d 1 / detJac * dN i 1) := by
  simp [gradLoop, inverseLoop, fdiv, fmul, fadd, h]

/-- The contraction loop when the determinant is zero. -/
theorem gradLoop_of_eq_zero (ad : Fin 2 → Fin 2 → ℚ) (dN : Fin 4 → Fin 2 → ℚ)
    (i : Fin 4) (d : Fin 2) :
    gradLoop (inverseLoop ad 0) dN i d = none := by
  simp [gradLoop, inverseLoop, fdiv, fmul, fadd]

/-- The stored determinant, in the words of the spec. -/
theorem detRefAt_eq_det2 (e : CQUAD4) (g : Fin 4) :
    detRefAt e g = det2 (isoJacobian e.RefCoord (dNAt e g)) := by
  rw [detRefAt, detOfAdjoint_adjoint, jacobianLoop_eq_isoJacobian]

/-- The stored gradient entry: non-finite when the determinant vanishes, the
adjoint over the determinant contracted with the natural derivatives otherwise. -/
theorem gradRefAt_eq (e : CQUAD4) (g : Fin 4) (i : Fin 4) (d : Fin 2) :
    gradRefAt e g i d =
      if det2 (isoJacobian e.RefCoord (dNAt e g)) = 0 then none
      else some
        (adjoint (isoJacobian e.RefCoord (dNAt e g)) d 0 /
            det2 (isoJacobian e.RefCoord (dNAt e g)) * dNAt e g i 0 +
          adjoint (isoJacobian e.RefCoord (dNAt e g)) d 1 /
            det2 (isoJacobian e.RefCoord (dNAt e g)) * dNAt e g i 1) := by
  rw [gradRefAt, detRefAt_eq_det2, jacobianLoop_eq_isoJacobian]
  split_ifs with h
  · rw [h, gradLoop_of_eq_zero]
  · rw [gradLoop_of_ne_zero _ _ _ _ _ h]

@[simp] theorem ComputeGrad_Linear_GaussWeight (e : CQUAD4) :
    (ComputeGrad_Linear e).GaussWeight = e.GaussWeight := rfl

@[simp] theorem ComputeGrad_Linear_RefCoord (e : CQUAD4) :
    (ComputeGrad_Linear e).RefCoord = e.RefCoord := rfl

/-- The determinant at the natural point `(Xi, Eta)` as a combination of the
four corner triangles. -/
theorem detOfAdjoint_corner_form (X : Fin 4 → Fin 2 → ℚ) (Xi Eta : ℚ) :
    detOfAdjoint (adjoint (jacobianLoop X (dNiXj Xi Eta))) =
      ((1 - Eta) * (1 - Xi) * cross2 (X 3) (X 0) (X 1) +
        (1 - Eta) * (1 + Xi) * cross2 (X 0) (X 1) (X 2) +
        (1 + Eta) * (1 + Xi) * cross2 (X 1) (X 2) (X 3) +
        (1 + Eta) * (1 - Xi) * cross2 (X 2) (X 3) (X 0)) / 16 := by
  simp [detOfAdjoint, adjoint, jacobianLoop, dNiXj, cross2]
  ring

/-- The determinant is positive at every natural point strictly inside the
reference square when the four corner triangles are positively oriented. -/
theorem detOfAdjoint_pos (X : Fin 4 → Fin 2 → ℚ) (Xi Eta : ℚ) (h : StrictlyConvexCCW X)
    (hx0 : -1 < Xi) (hx1 : Xi < 1) (he0 : -1 < Eta) (he1 : Eta < 1) :
    0 < detOfAdjoint (adjoint (jacobianLoop X (dNiXj Xi Eta))) := by
  obtain ⟨h0, h1, h2, h3⟩ := h
  rw [detOfAdjoint_corner_form]
  have a0 : 0 < 1 - Eta := by linarith
  have a1 : 0 < 1 + Eta := by linarith
  have b0 : 0 < 1 - Xi := by linarith
  have b1 : 0 < 1 + Xi := by linarith
  positivity

@[simp] theorem ComputeGrad_Linear_CurrentCoord (e : CQUAD4) :
    (ComputeGrad_Linear e).CurrentCoord = e.CurrentCoord := rfl

@[simp] theorem ComputeGrad_Linear_GaussCoord (e : CQUAD4) :
    (ComputeGrad_Linear e).GaussCoord = e.GaussCoord := rfl

/-- Two elements with the same data members are the same element. -/
theorem eq_of_members {a b : CQUAD4} (h1 : a.RefCoord = b.RefCoord)
    (h2 : a.CurrentCoord = b.CurrentCoord) (h3 : a.GaussCoord = b.GaussCoord)
    (h4 : a.GaussWeight = b.GaussWeight) (h5 : a.GaussPoint = b.GaussPoint) : a = b := by
  cases a
  cases b
  simp_all

/-- The Jacobian of rotated coordinates, first column. -/
theorem isoJacobian_rotate_zero (c s : ℚ) (X dN : Fin 4 → Fin 2 → ℚ) (i : Fin 2) :
    isoJacobian (rotate c s X) dN i 0 = c * isoJacobian X dN i 0 - s * isoJacobian X dN i 1 := by
  simp [isoJacobian, rotate, Fin.sum_univ_four]
  ring

/-- The Jacobian of rotated coordinates, second column. -/
theorem isoJacobian_rotate_one (c s : ℚ) (X dN : Fin 4 → Fin 2 → ℚ) (i : Fin 2) :
    isoJacobian (rotate c s X) dN i 1 = s * isoJacobian X dN i 0 + c * isoJacobian X dN i 1 := by
  simp [isoJacobian, rotate, Fin.sum_univ_four]
  ring

/-- A rotation multiplies the determinant by `c*c + s*s`. -/
theorem det2_isoJacobian_rotate (c s : ℚ) (X dN : Fin 4 → Fin 2 → ℚ) :
    det2 (isoJacobian (rotate c s X) dN) = (c * c + s * s) * det2 (isoJacobian X dN) := by
  simp only [det2, isoJacobian_rotate_zero, isoJacobian_rotate_one]
  ring

/-- The natural derivatives of the four shape functions add up to zero. -/
theorem dNiXj_sum (Xi Eta : ℚ) (k : Fin 2) : ∑ i, dNiXj Xi Eta i k = 0 := by
  fin_cases k <;> simp [dNiXj, Fin.sum_univ_four]

/-- A weighted sum of the gradient entries is the inverse applied to the
weighted sums of the natural derivatives. -/
theorem sum_mul_gradValue (X dN : Fin 4 → Fin 2 → ℚ) (f : Fin 4 → ℚ) (d : Fin 2) :
    ∑ i, f i * gradValue X dN i d =
      adjoint (isoJacobian X dN) d 0 / det2 (isoJacobian X dN) * ∑ i, f i * dN i 0 +
        adjoint (isoJacobian X dN) d 1 / det2 (isoJacobian X dN) * ∑ i, f i * dN i 1 := by
  simp only [gradValue, Fin.sum_univ_four]
  ring

/-- The coordinates of the nodes weighted by the gradient entries give the
identity matrix. -/
theorem sum_coord_mul_gradValue (X dN : Fin 4 → Fin 2 → ℚ)
    (hdet : det2 (isoJacobian X dN) ≠ 0) (c d : Fin 2) :
    ∑ i, X i c * gradValue X dN i d = if c = d then 1 else 0 := by
  have hJ : ∀ k, ∑ i, X i c * dN i k = isoJacobian X dN k c := fun _ => rfl
  have hdet2 : isoJacobian X dN 0 0 * isoJacobian X dN 1 1 -
      isoJacobian X dN 0 1 * isoJacobian X dN 1 0 ≠ 0 := by simpa [det2] using hdet
  rw [sum_mul_gradValue, hJ, hJ]
  fin_cases c <;> fin_cases d <;>
    simp [adjoint, det2] <;> field_simp <;> ring

end CQUAD4

/-! ## The claims -/

namespace CQUAD4

/-- C3: at every quadrature point the value `ComputeGrad_Linear` stores with
`SetJ_X` is the determinant `J00*J11 - J01*J10` of the isoparametric Jacobian
`J[i][j] = Σ_n RefCoord[n][j] * dN_n/dξ_i` at that point: the determinant taken
through the adjoint matrix is the determinant of the Jacobian itself. -/
theorem ComputeGrad_Linear_stores_det (e : CQUAD4) (g : Fin 4) :
    ((ComputeGrad_Linear e).GaussPoint g).J_X =
      isoJacobian e.RefCoord (dNAt e g) 0 0 * isoJacobian e.RefCoord (dNAt e g) 1 1 -
        isoJacobian e.RefCoord (dNAt e g) 0 1 * isoJacobian e.RefCoord (dNAt e g) 1 0 := by
  rw [ComputeGrad_Linear_GaussPoint, detRefAt_eq_det2, det2]

/-- C4: at a quadrature point where the Jacobian determinant is not zero, the
matrix adjoint/determinant that `ComputeGrad_Linear` forms is the two-sided
inverse of the Jacobian `J[k][d] = ∂x_d/∂ξ_k`; the gradient stored for node `i`
and dimension `d` is row `d` of that inverse contracted with the natural
derivatives of node `i`; and the stored gradients satisfy the chain rule
`Σ_d J[k][d] * gradN_ref[i][d] = dN_i/dξ_k`. -/
theorem ComputeGrad_Linear_inverse_chain_rule (e : CQUAD4) (g : Fin 4)
    (hdet : det2 (isoJacobian e.RefCoord (dNAt e g)) ≠ 0) :
    ∃ (inv : Fin 2 → Fin 2 → ℚ) (grad : Fin 4 → Fin 2 → ℚ),
      (∀ r c, inverseLoop (adjoint (jacobianLoop e.RefCoord (dNAt e g)))
          (detOfAdjoint (adjoint (jacobianLoop e.RefCoord (dNAt e g)))) r c = some (inv r c)) ∧
      (∀ r c, ∑ k, isoJacobian e.RefCoord (dNAt e g) r k * inv k c = if r = c then 1 else 0) ∧
      (∀ r c, ∑ k, inv r k * isoJacobian e.RefCoord (dNAt e g) k c = if r = c then 1 else 0) ∧
      (∀ i d, ((ComputeGrad_Linear e).GaussPoint g).GradNi_Xj i d = some (grad i d)) ∧
      (∀ i d, grad i d = ∑ k, inv d k * dNAt e g i k) ∧
      (∀ i k, ∑ d, isoJacobian e.RefCoord (dNAt e g) k d * grad i d = dNAt e g i k) := by
  set J := isoJacobian e.RefCoord (dNAt e g) with hJ
  have hdet2 : J 0 0 * J 1 1 - J 0 1 * J 1 0 ≠ 0 := by simpa [det2] using hdet
  refine ⟨fun r c => adjoint J r c / det2 J,
    fun i d => adjoint J d 0 / det2 J * dNAt e g i 0 + adjoint J d 1 / det2 J * dNAt e g i 1,
    ?_, ?_, ?_, ?_, ?_, ?_⟩
  · intro r c
    rw [detOfAdjoint_adjoint, jacobianLoop_eq_isoJacobian]
    simp [inverseLoop, fdiv, hdet, hJ]
  · intro r c
    fin_cases r <;> fin_cases c <;>
      simp [Fin.sum_univ_two, adjoint, det2] <;> field_simp <;> ring
  · intro r c
    fin_cases r <;> fin_cases c <;>
      simp [Fin.sum_univ_two, adjoint, det2] <;> field_simp <;> ring
  · intro i d
    rw [ComputeGrad_Linear_GaussPoint]
    simp only [gradRefAt_eq, if_neg hdet, hJ]
  · intro i d
    simp [Fin.sum_univ_two]
  · intro i k
    fin_cases k <;>
      simp [Fin.sum_univ_two, adjoint, det2] <;> field_simp <;> ring

/-- A witness for C4: the trapezoid at its first quadrature point. -/
theorem ComputeGrad_Linear_inverse_chain_rule_witness :
    det2 (isoJacobian trapezoidQuad.RefCoord (dNAt trapezoidQuad 0)) ≠ 0 ∧
    ∃ grad : Fin 4 → Fin 2 → ℚ,
      (∀ i d, ((ComputeGrad_Linear trapezoidQuad).GaussPoint 0).GradNi_Xj i d
        = some (grad i d)) ∧
      (∀ i k, ∑ d, isoJacobian trapezoidQuad.RefCoord (dNAt trapezoidQuad 0) k d * grad i d
        = dNAt trapezoidQuad 0 i k) := by
  have h : det2 (isoJacobian trapezoidQuad.RefCoord (dNAt trapezoidQuad 0)) ≠ 0 := by
    simp [det2, isoJacobian, Fin.sum_univ_four, trapezoidQuad, quadOf, trapezoid, dNAt, dNiXj,
      construct, Matrix.vecHead, Matrix.vecTail]
    norm_num
  obtain ⟨_, grad, _, _, _, h4, _, h6⟩ :=
    ComputeGrad_Linear_inverse_chain_rule trapezoidQuad 0 h
  exact ⟨h, grad, h4, h6⟩

/-- C6: for every reference and current coordinates, what `ComputeGrad_NonLinear`
stores for the reference configuration at each quadrature point, `jacobianDet_ref`
and `gradN_ref`, is what `ComputeGrad_Linear` stores for the same element. -/
theorem ComputeGrad_NonLinear_ref_eq_Linear (e : CQUAD4) (g : Fin 4) :
    ((ComputeGrad_NonLinear e).GaussPoint g).J_X = ((ComputeGrad_Linear e).GaussPoint g).J_X ∧
    ((ComputeGrad_NonLinear e).GaussPoint g).GradNi_Xj =
      ((ComputeGrad_Linear e).GaussPoint g).GradNi_Xj := by
  rw [ComputeGrad_NonLinear_GaussPoint, ComputeGrad_Linear_GaussPoint]
  exact ⟨rfl, rfl⟩

/-- C7: when `CurrentCoord` equals `RefCoord` node by node, after
`ComputeGrad_NonLinear` every quadrature point has `jacobianDet_curr` equal to
`jacobianDet_ref` and `gradN_curr` equal to `gradN_ref` for every node and
dimension. -/
theorem ComputeGrad_NonLinear_undeformed (e : CQUAD4)
    (_hcoord : ∀ n d, e.CurrentCoord n d = e.RefCoord n d) (g : Fin 4) :
    ((ComputeGrad_NonLinear e).GaussPoint g).J_x = ((ComputeGrad_NonLinear e).GaussPoint g).J_X ∧
    ∀ i d, ((ComputeGrad_NonLinear e).GaussPoint g).GradNi_xj i d =
      ((ComputeGrad_NonLinear e).GaussPoint g).GradNi_Xj i d := by
  rw [ComputeGrad_NonLinear_GaussPoint]
  exact ⟨rfl, fun _ _ => rfl⟩

/-- A witness for C7: the undeformed trapezoid at its third quadrature point. -/
theorem ComputeGrad_NonLinear_undeformed_witness :
    (∀ n d, trapezoidQuad.CurrentCoord n d = trapezoidQuad.RefCoord n d) ∧
    ((ComputeGrad_NonLinear trapezoidQuad).GaussPoint 2).J_x =
      ((ComputeGrad_NonLinear trapezoidQuad).GaussPoint 2).J_X ∧
    ∀ i d, ((ComputeGrad_NonLinear trapezoidQuad).GaussPoint 2).GradNi_xj i d =
      ((ComputeGrad_NonLinear trapezoidQuad).GaussPoint 2).GradNi_Xj i d :=
  ⟨fun _ _ => rfl, ComputeGrad_NonLinear_undeformed trapezoidQuad (fun _ _ => rfl) 2⟩

/-- C9: for every quadrilateral (whatever the order of its nodes, counter-clockwise
in particular) held by a constructed element, the sum over the four quadrature
points of `GaussWeight` times the `jacobianDet_ref` stored by `ComputeGrad_Linear`
is the polygon area `((x2-x0)*(y3-y1) - (x3-x1)*(y2-y0))/2`. -/
theorem ComputeGrad_Linear_weighted_sum_area (mem : CQUAD4) (X : Fin 4 → Fin 2 → ℚ) :
    ∑ g, (ComputeGrad_Linear { construct mem with RefCoord := X }).GaussWeight g *
        ((ComputeGrad_Linear { construct mem with RefCoord := X }).GaussPoint g).J_X =
      ((X 2 0 - X 0 0) * (X 3 1 - X 1 1) - (X 3 0 - X 1 0) * (X 2 1 - X 0 1)) / 2 := by
  simp only [ComputeGrad_Linear_GaussPoint, ComputeGrad_Linear_GaussWeight, detRefAt, dNAt,
    detOfAdjoint_corner_form, Fin.sum_univ_four]
  simp [construct, cross2, Matrix.vecHead, Matrix.vecTail]
  ring

/-- C10: for every strictly convex quadrilateral with counter-clockwise nodes
(each corner triangle previous-corner-next has positive signed area) held by a
constructed element, the `jacobianDet_ref` stored by `ComputeGrad_Linear` is
strictly positive at each of the four quadrature points. -/
theorem ComputeGrad_Linear_det_pos_of_convex (mem : CQUAD4) (X : Fin 4 → Fin 2 → ℚ)
    (hconv : StrictlyConvexCCW X) (g : Fin 4) :
    0 < ((ComputeGrad_Linear { construct mem with RefCoord := X }).GaussPoint g).J_X := by
  rw [ComputeGrad_Linear_GaussPoint]
  show 0 < detOfAdjoint (adjoint (jacobianLoop X (dNiXj _ _)))
  apply detOfAdjoint_pos X _ _ hconv <;>
    fin_cases g <;> simp [construct, Matrix.vecHead, Matrix.vecTail] <;> norm_num

/-- A witness for C10: the trapezoid is strictly convex with counter-clockwise
nodes, and its stored determinants are positive. -/
theorem ComputeGrad_Linear_det_pos_of_convex_witness :
    StrictlyConvexCCW trapezoid ∧
    ∀ g, 0 < ((ComputeGrad_Linear
      { construct zeroQUAD4 with RefCoord := trapezoid }).GaussPoint g).J_X :=
  have h : StrictlyConvexCCW trapezoid := by
    simp [StrictlyConvexCCW, cross2, trapezoid, Matrix.vecHead, Matrix.vecTail]
    norm_num
  ⟨h, ComputeGrad_Linear_det_pos_of_convex zeroQUAD4 trapezoid h⟩

/-- C1, as the code has it: `ComputeGrad_Linear` tests no determinant and has no
error exit. For every reference coordinates the call runs to its end; at every
quadrature point it stores the Jacobian determinant whatever its sign, and the
gradients it stores are the adjoint divided by that determinant contracted with
the natural derivatives: finite for every non-zero determinant, negative ones
included, and non-finite when the determinant is zero. -/
theorem ComputeGrad_Linear_unchecked (e : CQUAD4) (g : Fin 4) :
    ComputeGrad_Linear_call e = Except.ok (ComputeGrad_Linear e) ∧
    ((ComputeGrad_Linear e).GaussPoint g).J_X = det2 (isoJacobian e.RefCoord (dNAt e g)) ∧
    ∀ i d, ((ComputeGrad_Linear e).GaussPoint g).GradNi_Xj i d =
      if det2 (isoJacobian e.RefCoord (dNAt e g)) = 0 then none
      else some
        (adjoint (isoJacobian e.RefCoord (dNAt e g)) d 0 /
            det2 (isoJacobian e.RefCoord (dNAt e g)) * dNAt e g i 0 +
          adjoint (isoJacobian e.RefCoord (dNAt e g)) d 1 /
            det2 (isoJacobian e.RefCoord (dNAt e g)) * dNAt e g i 1) := by
  refine ⟨rfl, ?_, ?_⟩
  · rw [ComputeGrad_Linear_GaussPoint, detRefAt_eq_det2]
  · intro i d
    rw [ComputeGrad_Linear_GaussPoint]
    exact gradRefAt_eq e g i d

/-- C1 fails as stated: with all four nodes at the point (1, 2) the Jacobian
determinant at the first quadrature point is zero, yet `ComputeGrad_Linear`
reports no error, stores the zero determinant, and the division by it leaves a
non-finite gradient in the quadrature point. -/
theorem ComputeGrad_Linear_collapsed_not_fatal :
    (∃ g, det2 (isoJacobian collapsedQuad.RefCoord (dNAt collapsedQuad g)) ≤ 0) ∧
    (¬ ∃ err, ComputeGrad_Linear_call collapsedQuad = Except.error err) ∧
    ((ComputeGrad_Linear collapsedQuad).GaussPoint 0).J_X = 0 ∧
    ((ComputeGrad_Linear collapsedQuad).GaussPoint 0).GradNi_Xj 0 0 = none := by
  have h0 : det2 (isoJacobian collapsedQuad.RefCoord (dNAt collapsedQuad 0)) = 0 := by
    simp [det2, isoJacobian, Fin.sum_univ_four, collapsedQuad, quadOf]
    ring
  refine ⟨⟨0, h0.le⟩, ?_, ?_, ?_⟩
  · rintro ⟨err, h⟩
    simp [ComputeGrad_Linear_call] at h
  · rw [ComputeGrad_Linear_GaussPoint, detRefAt_eq_det2, h0]
  · rw [ComputeGrad_Linear_GaussPoint]
    show gradRefAt collapsedQuad 0 0 0 = none
    rw [gradRefAt_eq, if_pos h0]

/-- C5, as the code has it: `ComputeGrad_NonLinear` validates neither determinant
and has no error exit. For every reference and current coordinates the call
runs to its end; at every quadrature point the reference determinant is stored
whatever its sign and the reference gradients are the adjoint divided by it
(non-finite when it is zero), and the current gradients are likewise the result
of a division by the stored current determinant: finite exactly when that
determinant is not zero. -/
theorem ComputeGrad_NonLinear_unchecked (e : CQUAD4) (g : Fin 4) :
    ComputeGrad_NonLinear_call e = Except.ok (ComputeGrad_NonLinear e) ∧
    ((ComputeGrad_NonLinear e).GaussPoint g).J_X = det2 (isoJacobian e.RefCoord (dNAt e g)) ∧
    (∀ i d, ((ComputeGrad_NonLinear e).GaussPoint g).GradNi_Xj i d =
      if ((ComputeGrad_NonLinear e).GaussPoint g).J_X = 0 then none
      else some
        (adjoint (isoJacobian e.RefCoord (dNAt e g)) d 0 /
            ((ComputeGrad_NonLinear e).GaussPoint g).J_X * dNAt e g i 0 +
          adjoint (isoJacobian e.RefCoord (dNAt e g)) d 1 /
            ((ComputeGrad_NonLinear e).GaussPoint g).J_X * dNAt e g i 1)) ∧
    (∀ i d, (((ComputeGrad_NonLinear e).GaussPoint g).GradNi_xj i d).isSome =
      decide (((ComputeGrad_NonLinear e).GaussPoint g).J_x ≠ 0)) := by
  refine ⟨rfl, ?_, ?_, ?_⟩
  · rw [ComputeGrad_NonLinear_GaussPoint, detRefAt_eq_det2]
  · intro i d
    rw [ComputeGrad_NonLinear_GaussPoint]
    show gradRefAt e g i d = _
    rw [gradRefAt_eq, detRefAt_eq_det2]
  · intro i d
    rw [ComputeGrad_NonLinear_GaussPoint]
    show (gradRefAt e g i d).isSome = decide (detRefAt e g ≠ 0)
    rw [gradRefAt_eq, detRefAt_eq_det2]
    split_ifs with h <;> simp [h]

/-- C5 fails as stated: for the unit square with clockwise nodes, undeformed,
both determinants stored at the first quadrature point are -1/4, yet
`ComputeGrad_NonLinear` reports no error and stores finite gradients, the
quotients by that negative determinant. -/
theorem ComputeGrad_NonLinear_clockwise_not_fatal :
    det2 (isoJacobian clockwiseQuad.RefCoord (dNAt clockwiseQuad 0)) ≤ 0 ∧
    det2 (isoJacobian clockwiseQuad.CurrentCoord (dNAt clockwiseQuad 0)) ≤ 0 ∧
    (¬ ∃ err, ComputeGrad_NonLinear_call clockwiseQuad = Except.error err) ∧
    ((ComputeGrad_NonLinear clockwiseQuad).GaussPoint 0).J_X = -1 / 4 ∧
    ((ComputeGrad_NonLinear clockwiseQuad).GaussPoint 0).J_x = -1 / 4 ∧
    ((ComputeGrad_NonLinear clockwiseQuad).GaussPoint 0).GradNi_Xj 0 0 =
      some (-0.788675134594813) ∧
    ((ComputeGrad_NonLinear clockwiseQuad).GaussPoint 0).GradNi_xj 0 0 =
      some (-0.788675134594813) := by
  have h0 : det2 (isoJacobian clockwiseQuad.RefCoord (dNAt clockwiseQuad 0)) = -1 / 4 := by
    simp [det2, isoJacobian, Fin.sum_univ_four, clockwiseQuad, quadOf, clockwiseSquare, dNAt,
      dNiXj, construct, Matrix.vecHead, Matrix.vecTail]
    norm_num
  have hg : gradRefAt clockwiseQuad 0 0 0 = some (-0.788675134594813) := by
    rw [gradRefAt_eq, h0]
    simp [adjoint, isoJacobian, Fin.sum_univ_four, clockwiseQuad, quadOf, clockwiseSquare, dNAt,
      dNiXj, construct, Matrix.vecHead, Matrix.vecTail]
    norm_num
  have hc : clockwiseQuad.CurrentCoord = clockwiseQuad.RefCoord := rfl
  have hle : det2 (isoJacobian clockwiseQuad.RefCoord (dNAt clockwiseQuad 0)) ≤ 0 := by
    rw [h0]
    norm_num
  refine ⟨hle, hc ▸ hle, ?_, ?_, ?_, ?_, ?_⟩
  · rintro ⟨err, h⟩
    simp [ComputeGrad_NonLinear_call] at h
  · rw [ComputeGrad_NonLinear_GaussPoint, detRefAt_eq_det2, h0]
  · rw [ComputeGrad_NonLinear_GaussPoint, detRefAt_eq_det2, h0]
  · rw [ComputeGrad_NonLinear_GaussPoint]
    exact hg
  · rw [ComputeGrad_NonLinear_GaussPoint]
    exact hg

/-- C2 at its failing input: the unit square stretched to twice its size. At the
first quadrature point `ComputeGrad_NonLinear` stores 1/4 as `jacobianDet_curr`,
the determinant of the reference configuration, where the Jacobian built from
`CurrentCoord` has determinant 1; the current gradient stored for node 0 is the
reference one, twice the gradient in the stretched configuration. -/
theorem ComputeGrad_NonLinear_stretched_J_x :
    ((ComputeGrad_NonLinear stretchedQuad).GaussPoint 0).J_x = 1 / 4 ∧
    det2 (isoJacobian stretchedQuad.CurrentCoord (dNAt stretchedQuad 0)) = 1 ∧
    ((ComputeGrad_NonLinear stretchedQuad).GaussPoint 0).GradNi_xj 0 0 =
      some (-0.788675134594813) ∧
    adjoint (isoJacobian stretchedQuad.CurrentCoord (dNAt stretchedQuad 0)) 0 0 /
        det2 (isoJacobian stretchedQuad.CurrentCoord (dNAt stretchedQuad 0)) *
          dNAt stretchedQuad 0 0 0 +
      adjoint (isoJacobian stretchedQuad.CurrentCoord (dNAt stretchedQuad 0)) 0 1 /
        det2 (isoJacobian stretchedQuad.CurrentCoord (dNAt stretchedQuad 0)) *
          dNAt stretchedQuad 0 0 1 = -0.3943375672974065 := by
  have h0 : det2 (isoJacobian stretchedQuad.RefCoord (dNAt stretchedQuad 0)) = 1 / 4 := by
    simp [det2, isoJacobian, Fin.sum_univ_four, stretchedQuad, quadOf, unitSquare, dNAt,
      dNiXj, construct, Matrix.vecHead, Matrix.vecTail]
    norm_num
  have h1 : det2 (isoJacobian stretchedQuad.CurrentCoord (dNAt stretchedQuad 0)) = 1 := by
    simp [det2, isoJacobian, Fin.sum_univ_four, stretchedQuad, quadOf, doubleSquare, dNAt,
      dNiXj, construct, Matrix.vecHead, Matrix.vecTail]
    norm_num
  refine ⟨?_, h1, ?_, ?_⟩
  · rw [ComputeGrad_NonLinear_GaussPoint, detRefAt_eq_det2, h0]
  · rw [ComputeGrad_NonLinear_GaussPoint]
    show gradRefAt stretchedQuad 0 0 0 = _
    rw [gradRefAt_eq, h0]
    simp [adjoint, isoJacobian, Fin.sum_univ_four, stretchedQuad, quadOf, unitSquare, dNAt,
      dNiXj, construct, Matrix.vecHead, Matrix.vecTail]
    norm_num
  · rw [h1]
    simp [adjoint, isoJacobian, Fin.sum_univ_four, stretchedQuad, quadOf, doubleSquare, dNAt,
      dNiXj, construct, Matrix.vecHead, Matrix.vecTail]
    norm_num

end CQUAD4

namespace CTRIA1

/-- C8 at its failing input: for the triangle (0,0), (1,0), (0,1) with zero-filled
quadrature storage, `CTRIA1::ComputeGrad_Linear` leaves the stored reference
determinant at 0, so the area derived from the quadrature point is 0 and not
0.5. -/
theorem ComputeGrad_Linear_unitTriangle_area :
    ((ComputeGrad_Linear unitTriangle).GaussPoint 0).J_X = 0 ∧
    (ComputeGrad_Linear unitTriangle).GaussWeight 0 = 0.5 ∧
    quadratureArea (ComputeGrad_Linear unitTriangle) = 0 ∧
    quadratureArea (ComputeGrad_Linear unitTriangle) ≠ 0.5 := by
  have h : quadratureArea (ComputeGrad_Linear unitTriangle) = 0 := by
    simp [quadratureArea, ComputeGrad_Linear, unitTriangle, construct, zeroGauss]
  refine ⟨rfl, ?_, h, ?_⟩
  · simp [ComputeGrad_Linear, unitTriangle, construct]
  · rw [h]
    norm_num

end CTRIA1

namespace CQUAD4

/-- C11: for every parallelogram (reference coordinates with `X0 + X2 = X1 + X3`),
the four `jacobianDet_ref` values stored by `ComputeGrad_Linear` are equal to each
other, each being one quarter of the signed area of the parallelogram. -/
theorem ComputeGrad_Linear_parallelogram (e : CQUAD4)
    (hpar : ∀ d, e.RefCoord 0 d + e.RefCoord 2 d = e.RefCoord 1 d + e.RefCoord 3 d) :
    (∀ g, ((ComputeGrad_Linear e).GaussPoint g).J_X = parallelogramArea e.RefCoord / 4) ∧
    (∀ g h, ((ComputeGrad_Linear e).GaussPoint g).J_X =
      ((ComputeGrad_Linear e).GaussPoint h).J_X) := by
  have key : ∀ g, ((ComputeGrad_Linear e).GaussPoint g).J_X =
      parallelogramArea e.RefCoord / 4 := by
    intro g
    have h0 : e.RefCoord 2 0 = e.RefCoord 1 0 + e.RefCoord 3 0 - e.RefCoord 0 0 := by
      linarith [hpar 0]
    have h1 : e.RefCoord 2 1 = e.RefCoord 1 1 + e.RefCoord 3 1 - e.RefCoord 0 1 := by
      linarith [hpar 1]
    rw [ComputeGrad_Linear_GaussPoint]
    show detOfAdjoint (adjoint (jacobianLoop e.RefCoord (dNiXj _ _))) = _
    rw [detOfAdjoint_corner_form]
    simp only [cross2, parallelogramArea, h0, h1]
    ring
  exact ⟨key, fun g h => (key g).trans (key h).symm⟩

/-- A witness for C11: the parallelogram (0,0), (2,0), (3,1), (1,1) of area 2. -/
theorem ComputeGrad_Linear_parallelogram_witness :
    (∀ d, parallelogramQuad.RefCoord 0 d + parallelogramQuad.RefCoord 2 d =
      parallelogramQuad.RefCoord 1 d + parallelogramQuad.RefCoord 3 d) ∧
    (∀ g, ((ComputeGrad_Linear parallelogramQuad).GaussPoint g).J_X =
      parallelogramArea parallelogramQuad.RefCoord / 4) ∧
    parallelogramArea parallelogramQuad.RefCoord = 2 := by
  have h : ∀ d, parallelogramQuad.RefCoord 0 d + parallelogramQuad.RefCoord 2 d =
      parallelogramQuad.RefCoord 1 d + parallelogramQuad.RefCoord 3 d := by
    intro d
    fin_cases d <;>
      norm_num [parallelogramQuad, quadOf, slantedParallelogram, Matrix.vecHead, Matrix.vecTail]
  refine ⟨h, (ComputeGrad_Linear_parallelogram parallelogramQuad h).1, ?_⟩
  simp [parallelogramArea, parallelogramQuad, quadOf, slantedParallelogram, Matrix.vecHead,
    Matrix.vecTail]

/-- C12: for every planar rotation `[[c, -s], [s, c]]` with `c*c + s*s = 1` and
every quadrature point where the Jacobian determinant is not zero, running
`ComputeGrad_Linear` on the rotated reference coordinates stores the same
`jacobianDet_ref` as for the unrotated element, and gradients equal to the
rotation applied to the unrotated gradient vector of each node. -/
theorem ComputeGrad_Linear_rotation (e : CQUAD4) (c s : ℚ) (hrot : c * c + s * s = 1)
    (g : Fin 4) (hdet : det2 (isoJacobian e.RefCoord (dNAt e g)) ≠ 0) :
    ((ComputeGrad_Linear { e with RefCoord := rotate c s e.RefCoord }).GaussPoint g).J_X =
      ((ComputeGrad_Linear e).GaussPoint g).J_X ∧
    ∃ grad : Fin 4 → Fin 2 → ℚ,
      (∀ i d, ((ComputeGrad_Linear e).GaussPoint g).GradNi_Xj i d = some (grad i d)) ∧
      (∀ i, ((ComputeGrad_Linear
          { e with RefCoord := rotate c s e.RefCoord }).GaussPoint g).GradNi_Xj i 0 =
        some (c * grad i 0 - s * grad i 1)) ∧
      (∀ i, ((ComputeGrad_Linear
          { e with RefCoord := rotate c s e.RefCoord }).GaussPoint g).GradNi_Xj i 1 =
        some (s * grad i 0 + c * grad i 1)) := by
  have hd : det2 (isoJacobian (rotate c s e.RefCoord) (dNAt e g)) =
      det2 (isoJacobian e.RefCoord (dNAt e g)) := by
    rw [det2_isoJacobian_rotate, hrot, one_mul]
  have hdN : dNAt { e with RefCoord := rotate c s e.RefCoord } g = dNAt e g := rfl
  have hgrad : ∀ i d, gradRefAt { e with RefCoord := rotate c s e.RefCoord } g i d =
      some
        (adjoint (isoJacobian (rotate c s e.RefCoord) (dNAt e g)) d 0 /
            det2 (isoJacobian e.RefCoord (dNAt e g)) * dNAt e g i 0 +
          adjoint (isoJacobian (rotate c s e.RefCoord) (dNAt e g)) d 1 /
            det2 (isoJacobian e.RefCoord (dNAt e g)) * dNAt e g i 1) := by
    intro i d
    rw [gradRefAt_eq]
    simp only [hdN, hd, if_neg hdet]
  refine ⟨?_, fun i d =>
    adjoint (isoJacobian e.RefCoord (dNAt e g)) d 0 /
        det2 (isoJacobian e.RefCoord (dNAt e g)) * dNAt e g i 0 +
      adjoint (isoJacobian e.RefCoord (dNAt e g)) d 1 /
        det2 (isoJacobian e.RefCoord (dNAt e g)) * dNAt e g i 1, ?_, ?_, ?_⟩
  · rw [ComputeGrad_Linear_GaussPoint, ComputeGrad_Linear_GaussPoint, detRefAt_eq_det2,
      detRefAt_eq_det2]
    exact hd
  · intro i d
    rw [ComputeGrad_Linear_GaussPoint]
    show gradRefAt e g i d = _
    rw [gradRefAt_eq, if_neg hdet]
  · intro i
    rw [ComputeGrad_Linear_GaussPoint]
    show gradRefAt _ g i 0 = _
    rw [hgrad]
    congr 1
    simp only [adjoint, isoJacobian_rotate_zero, isoJacobian_rotate_one, Matrix.cons_val_zero,
      Matrix.cons_val_one, Matrix.head_cons]
    field_simp
    ring
  · intro i
    rw [ComputeGrad_Linear_GaussPoint]
    show gradRefAt _ g i 1 = _
    rw [hgrad]
    congr 1
    simp only [adjoint, isoJacobian_rotate_zero, isoJacobian_rotate_one, Matrix.cons_val_zero,
      Matrix.cons_val_one, Matrix.head_cons]
    field_simp
    ring

/-- A witness for C12: the trapezoid turned by the rotation with `c = 3/5`,
`s = 4/5`, at its first quadrature point. -/
theorem ComputeGrad_Linear_rotation_witness :
    ((3 : ℚ) / 5) * (3 / 5) + (4 / 5) * (4 / 5) = 1 ∧
    det2 (isoJacobian trapezoidQuad.RefCoord (dNAt trapezoidQuad 0)) ≠ 0 ∧
    ((ComputeGrad_Linear
        { trapezoidQuad with
          RefCoord := rotate (3 / 5) (4 / 5) trapezoidQuad.RefCoord }).GaussPoint 0).J_X =
      ((ComputeGrad_Linear trapezoidQuad).GaussPoint 0).J_X := by
  have hrot : ((3 : ℚ) / 5) * (3 / 5) + (4 / 5) * (4 / 5) = 1 := by norm_num
  have hdet : det2 (isoJacobian trapezoidQuad.RefCoord (dNAt trapezoidQuad 0)) ≠ 0 := by
    simp [det2, isoJacobian, Fin.sum_univ_four, trapezoidQuad, quadOf, trapezoid, dNAt, dNiXj,
      construct, Matrix.vecHead, Matrix.vecTail]
    norm_num
  exact ⟨hrot, hdet, (ComputeGrad_Linear_rotation trapezoidQuad (3 / 5) (4 / 5) hrot 0 hdet).1⟩

/-- C13: at every quadrature point `(xi, eta)` the table `dNiXj` used by
`ComputeGrad_Linear` and `ComputeGrad_NonLinear` holds the partial derivatives of
the bilinear shape functions `N_i = (1 + xi_i*xi)*(1 + eta_i*eta)/4` with node
natural coordinates (-1,-1), (1,-1), (1,1), (-1,1): `dN_i/dxi = xi_i*(1 + eta_i*eta)/4`
and `dN_i/deta = eta_i*(1 + xi_i*xi)/4`, e.g. `dN0/dxi = -0.25*(1-eta)`; for the
unit square at the first quadrature point the table holds exactly the values of
these closed forms. -/
theorem dNiXj_bilinear_derivatives (e : CQUAD4) (g : Fin 4) :
    (∀ i, HasDerivAt (fun xi => shapeN i xi (e.GaussCoord g 1)) (dNAt e g i 0)
      (e.GaussCoord g 0)) ∧
    (∀ i, HasDerivAt (fun eta => shapeN i (e.GaussCoord g 0) eta) (dNAt e g i 1)
      (e.GaussCoord g 1)) ∧
    (∀ i, dNAt e g i 0 = nodeNatural i 0 * (1 + nodeNatural i 1 * e.GaussCoord g 1) / 4) ∧
    (∀ i, dNAt e g i 1 = nodeNatural i 1 * (1 + nodeNatural i 0 * e.GaussCoord g 0) / 4) ∧
    dNAt e g 0 0 = -0.25 * (1 - e.GaussCoord g 1) ∧
    dNAt (quadOf unitSquare unitSquare) 0 =
      ![![-0.3943375672974065, -0.3943375672974065],
        ![0.3943375672974065, -0.1056624327025935],
        ![0.1056624327025935, 0.1056624327025935],
        ![-0.1056624327025935, 0.3943375672974065]] := by
  have hxi : ∀ i, dNAt e g i 0 =
      nodeNatural i 0 * (1 + nodeNatural i 1 * e.GaussCoord g 1) / 4 := by
    intro i
    fin_cases i <;> simp [dNAt, dNiXj, nodeNatural, Matrix.vecHead, Matrix.vecTail] <;> ring
  have heta : ∀ i, dNAt e g i 1 =
      nodeNatural i 1 * (1 + nodeNatural i 0 * e.GaussCoord g 0) / 4 := by
    intro i
    fin_cases i <;> simp [dNAt, dNiXj, nodeNatural, Matrix.vecHead, Matrix.vecTail] <;> ring
  refine ⟨?_, ?_, hxi, heta, ?_, ?_⟩
  · intro i
    rw [hxi]
    unfold shapeN
    have h := ((((hasDerivAt_id (e.GaussCoord g 0)).const_mul (nodeNatural i 0)).const_add
      1).mul_const (1 + nodeNatural i 1 * e.GaussCoord g 1)).div_const 4
    simpa using h
  · intro i
    rw [heta]
    unfold shapeN
    have h := ((((hasDerivAt_id (e.GaussCoord g 1)).const_mul (nodeNatural i 1)).const_add
      1).const_mul (1 + nodeNatural i 0 * e.GaussCoord g 0)).div_const 4
    have h2 : (1 + nodeNatural i 0 * e.GaussCoord g 0) * (nodeNatural i 1 * 1) / 4 =
        nodeNatural i 1 * (1 + nodeNatural i 0 * e.GaussCoord g 0) / 4 := by ring
    rw [← h2]
    simpa using h
  · norm_num [dNAt, dNiXj]
  · funext i d
    fin_cases i <;> fin_cases d <;>
      norm_num [dNAt, dNiXj, quadOf, construct, Matrix.vecHead, Matrix.vecTail]

/-- C14, as the code has it: the constructor fixes 4 nodes and 4 quadrature points
at (-g,-g), (+g,-g), (+g,+g), (-g,+g) in that index order, each with weight 1.0,
where `g` is the decimal 0.577350269189626, the value of 1/sqrt(3) rounded to
fifteen places: `3*g*g` is not 1 but lies just above it, and
`3*(g - 10^-15)^2` lies below. -/
theorem construct_quadrature_rule (mem : CQUAD4) :
    nNodes = 4 ∧ nGaussPoints = 4 ∧
    (construct mem).GaussCoord =
      ![![-0.577350269189626, -0.577350269189626], ![0.577350269189626, -0.577350269189626],
        ![0.577350269189626, 0.577350269189626], ![-0.577350269189626, 0.577350269189626]] ∧
    (∀ g, (construct mem).GaussWeight g = 1) ∧
    (1 : ℚ) < 3 * 0.577350269189626 * 0.577350269189626 ∧
    3 * (0.577350269189626 - 1 / 10 ^ 15) * (0.577350269189626 - 1 / 10 ^ 15) < (1 : ℚ) := by
  refine ⟨rfl, rfl, rfl, ?_, by norm_num, by norm_num⟩
  intro g
  fin_cases g <;> norm_num [construct, Matrix.vecHead, Matrix.vecTail]

/-- C14 fails as stated: no number `g` with `3*g*g = 1` gives the quadrature
coordinates the constructor stores. -/
theorem construct_GaussCoord_not_inv_sqrt_three :
    ¬ ∃ g : ℚ, 3 * g * g = 1 ∧
      (construct zeroQUAD4).GaussCoord = ![![-g, -g], ![g, -g], ![g, g], ![-g, g]] := by
  rintro ⟨g, h3, hc⟩
  have hg : (construct zeroQUAD4).GaussCoord 2 0 = g := by
    rw [hc]
    rfl
  have hv : (construct zeroQUAD4).GaussCoord 2 0 = 0.577350269189626 := by
    simp [construct]
  rw [← hg, hv] at h3
  norm_num at h3

/-- C16: calling `ComputeGrad_Linear` twice in a row leaves the element in the
state the first call left it in: every stored gradient and determinant after the
second call is the one after the first. -/
theorem ComputeGrad_Linear_idempotent (e : CQUAD4) :
    ComputeGrad_Linear (ComputeGrad_Linear e) = ComputeGrad_Linear e := by
  refine eq_of_members (ComputeGrad_Linear_RefCoord _) (ComputeGrad_Linear_CurrentCoord _)
    (ComputeGrad_Linear_GaussCoord _) (ComputeGrad_Linear_GaussWeight _) ?_
  funext g
  rw [ComputeGrad_Linear_GaussPoint (ComputeGrad_Linear e) g,
    detRefAt_congr (ComputeGrad_Linear_RefCoord e) (ComputeGrad_Linear_GaussCoord e),
    gradRefAt_congr (ComputeGrad_Linear_RefCoord e) (ComputeGrad_Linear_GaussCoord e),
    ComputeGrad_Linear_GaussPoint e g]

/-- C17: `ComputeGrad_Linear` writes only `jacobianDet_ref` and `gradN_ref` of the
quadrature points: `CurrentCoord`, `RefCoord`, the quadrature coordinates and
weights, and the current-configuration determinant and gradients of every
quadrature point are after the call what they were before it. -/
theorem ComputeGrad_Linear_frame (e : CQUAD4) :
    (ComputeGrad_Linear e).CurrentCoord = e.CurrentCoord ∧
    (ComputeGrad_Linear e).RefCoord = e.RefCoord ∧
    (ComputeGrad_Linear e).GaussCoord = e.GaussCoord ∧
    (ComputeGrad_Linear e).GaussWeight = e.GaussWeight ∧
    (∀ g, ((ComputeGrad_Linear e).GaussPoint g).J_x = (e.GaussPoint g).J_x) ∧
    (∀ g, ((ComputeGrad_Linear e).GaussPoint g).GradNi_xj = (e.GaussPoint g).GradNi_xj) := by
  refine ⟨rfl, rfl, rfl, rfl, ?_, ?_⟩ <;>
  · intro g
    rw [ComputeGrad_Linear_GaussPoint]

/-- C20: what `ComputeGrad_NonLinear` stores does not depend on `CurrentCoord`: for
any two choices of `CurrentCoord` with everything else the same, the stored
`jacobianDet_ref`, `jacobianDet_curr`, `gradN_ref` and `gradN_curr` are identical at
every quadrature point, and `jacobianDet_curr` always equals `jacobianDet_ref`. -/
theorem ComputeGrad_NonLinear_ignores_CurrentCoord (e : CQUAD4)
    (Cur Cur2 : Fin 4 → Fin 2 → ℚ) (g : Fin 4) :
    (ComputeGrad_NonLinear { e with CurrentCoord := Cur }).GaussPoint g =
      (ComputeGrad_NonLinear { e with CurrentCoord := Cur2 }).GaussPoint g ∧
    ((ComputeGrad_NonLinear { e with CurrentCoord := Cur }).GaussPoint g).J_x =
      ((ComputeGrad_NonLinear { e with CurrentCoord := Cur }).GaussPoint g).J_X := by
  rw [ComputeGrad_NonLinear_GaussPoint, ComputeGrad_NonLinear_GaussPoint]
  exact ⟨rfl, rfl⟩

end CQUAD4

namespace CTRIA1

/-- C15, as the code has it: the constructor fixes 3 nodes and exactly 1
quadrature point, with weight 1/2, located at (c, c) where `c` is the decimal
0.333333333333333, the value of 1/3 cut after fifteen places: `c` is below 1/3
by less than `10^-15`. -/
theorem construct_quadrature_rule_tria (mem : CTRIA1) :
    nNodes = 3 ∧ nGaussPoints = 1 ∧
    (construct mem).GaussCoord 0 = ![0.333333333333333, 0.333333333333333] ∧
    (construct mem).GaussWeight 0 = 1 / 2 ∧
    (0.333333333333333 : ℚ) < 1 / 3 ∧ (1 : ℚ) / 3 - 1 / 10 ^ 15 < 0.333333333333333 := by
  refine ⟨rfl, rfl, rfl, ?_, by norm_num, by norm_num⟩
  norm_num [construct]

/-- C15 fails as stated: the quadrature coordinate the constructor stores is not
1/3. -/
theorem construct_GaussCoord_not_one_third :
    unitTriangle.GaussCoord 0 0 ≠ 1 / 3 ∧ unitTriangle.GaussCoord 0 1 ≠ 1 / 3 := by
  constructor <;> norm_num [unitTriangle, construct]

/-- C18, as the code has it: `GetGradNi_X(iNode, iGauss, iDim)` never fails and
knows no "not yet computed" condition: for every element state it returns the
entry of `gradN_ref` that quadrature point `iGauss` holds, which for an element
that has only been constructed is what the allocated storage held. -/
theorem GetGradNi_X_returns_stored (e mem : CTRIA1) (iNode : Fin 3) (iGauss : Fin 1)
    (iDim : Fin 2) :
    GetGradNi_X_call e iNode iGauss iDim = Except.ok ((e.GaussPoint iGauss).GradNi_Xj iNode iDim) ∧
    GetGradNi_X_call (construct mem) iNode iGauss iDim =
      Except.ok ((mem.GaussPoint iGauss).GradNi_Xj iNode iDim) :=
  ⟨rfl, rfl⟩

/-- C18 fails as stated: on the triangle that has only been constructed, with no
gradient computation run, the accessor reports no error and returns the value
found in the zero-filled storage. -/
theorem GetGradNi_X_unitTriangle_not_rejected :
    (¬ ∃ err, GetGradNi_X_call unitTriangle 0 0 0 = Except.error err) ∧
    GetGradNi_X_call unitTriangle 0 0 0 = Except.ok (some 0) := by
  refine ⟨?_, rfl⟩
  rintro ⟨err, h⟩
  simp [GetGradNi_X_call] at h

end CTRIA1

namespace CQUAD4

/-- C19: the gradients stored by `ComputeGrad_Linear` reproduce the gradient of
every affine field exactly: at a quadrature point where the Jacobian determinant
is not zero, for every `a`, `b0`, `b1`, the sum over the four nodes `i` of
`(a + b0*X_i[0] + b1*X_i[1]) * gradN_ref[i][d]` is `b_d` for `d = 0, 1`; in
particular the four nodal gradients sum to zero and the sum of
`X_i[c] * gradN_ref[i][d]` is the Kronecker delta. -/
theorem ComputeGrad_Linear_affine_exact (e : CQUAD4) (g : Fin 4)
    (hdet : det2 (isoJacobian e.RefCoord (dNAt e g)) ≠ 0) (a b0 b1 : ℚ) :
    ∃ grad : Fin 4 → Fin 2 → ℚ,
      (∀ i d, ((ComputeGrad_Linear e).GaussPoint g).GradNi_Xj i d = some (grad i d)) ∧
      (∑ i, (a + b0 * e.RefCoord i 0 + b1 * e.RefCoord i 1) * grad i 0 = b0) ∧
      (∑ i, (a + b0 * e.RefCoord i 0 + b1 * e.RefCoord i 1) * grad i 1 = b1) ∧
      (∀ d, ∑ i, grad i d = 0) ∧
      (∀ c d, ∑ i, e.RefCoord i c * grad i d = if c = d then 1 else 0) := by
  have hsum : ∀ d, ∑ i, gradValue e.RefCoord (dNAt e g) i d = 0 := by
    intro d
    have h := sum_mul_gradValue e.RefCoord (dNAt e g) (fun _ => 1) d
    simp only [one_mul] at h
    rw [h, dNAt, dNiXj_sum, dNiXj_sum]
    ring
  have hkron := sum_coord_mul_gradValue e.RefCoord (dNAt e g) hdet
  have haff : ∀ d, ∑ i, (a + b0 * e.RefCoord i 0 + b1 * e.RefCoord i 1) *
      gradValue e.RefCoord (dNAt e g) i d =
        a * 0 + b0 * (if (0 : Fin 2) = d then 1 else 0) +
          b1 * (if (1 : Fin 2) = d then 1 else 0) := by
    intro d
    have hsplit : ∑ i, (a + b0 * e.RefCoord i 0 + b1 * e.RefCoord i 1) *
        gradValue e.RefCoord (dNAt e g) i d =
          a * ∑ i, gradValue e.RefCoord (dNAt e g) i d +
            b0 * ∑ i, e.RefCoord i 0 * gradValue e.RefCoord (dNAt e g) i d +
            b1 * ∑ i, e.RefCoord i 1 * gradValue e.RefCoord (dNAt e g) i d := by
      simp only [Fin.sum_univ_four]
      ring
    rw [hsplit, hsum d, hkron 0 d, hkron 1 d]
  refine ⟨gradValue e.RefCoord (dNAt e g), ?_, ?_, ?_, hsum, hkron⟩
  · intro i d
    rw [ComputeGrad_Linear_GaussPoint]
    show gradRefAt e g i d = _
    rw [gradRefAt_eq, if_neg hdet]
    rfl
  · rw [haff 0]
    simp
  · rw [haff 1]
    simp

/-- A witness for C19: the field `1 + 2*x + 3*y` on the trapezoid, at its first
quadrature point. -/
theorem ComputeGrad_Linear_affine_exact_witness :
    det2 (isoJacobian trapezoidQuad.RefCoord (dNAt trapezoidQuad 0)) ≠ 0 ∧
    ∃ grad : Fin 4 → Fin 2 → ℚ,
      (∀ i d, ((ComputeGrad_Linear trapezoidQuad).GaussPoint 0).GradNi_Xj i d
        = some (grad i d)) ∧
      (∑ i, (1 + 2 * trapezoidQuad.RefCoord i 0 + 3 * trapezoidQuad.RefCoord i 1) * grad i 0
        = 2) ∧
      (∑ i, (1 + 2 * trapezoidQuad.RefCoord i 0 + 3 * trapezoidQuad.RefCoord i 1) * grad i 1
        = 3) := by
  have h : det2 (isoJacobian trapezoidQuad.RefCoord (dNAt trapezoidQuad 0)) ≠ 0 := by
    simp [det2, isoJacobian, Fin.sum_univ_four, trapezoidQuad, quadOf, trapezoid, dNAt, dNiXj,
      construct, Matrix.vecHead, Matrix.vecTail]
    norm_num
  obtain ⟨grad, h1, h2, h3, _, _⟩ := ComputeGrad_Linear_affine_exact trapezoidQuad 0 h 1 2 3
  exact ⟨h, grad, h1, h2, h3⟩

end CQUAD4

namespace SU2_SOL

/-- C21 at its failing input: a single-zone time-stepping run of three iterations
without restart, written every iteration. At iteration 0 nothing is written; at
iteration 1 the write condition holds, the guard of `new CBaselineSolver` does
not, and `LoadRestart` is called through `solver_container[0]`, which is still
`NULL`. -/
theorem unsteadyBranch_timeStepping_null_solver :
    writeCondition timeSteppingConfig 0 false = false ∧
    writeCondition timeSteppingConfig 1 false = true ∧
    instantiateCondition timeSteppingConfig 1 = false ∧
    unsteadyBranch timeSteppingConfig 1 = Except.error { iExtIter := 1, iZone := 0 } := by
  refine ⟨by decide, by decide, by decide, ?_⟩
  simp [unsteadyBranch, whileLoop, zoneLoop, zoneStep, writeCondition, instantiateCondition,
    dualTime, timeSteppingConfig, List.range, List.range.loop]

end SU2_SOL

namespace CQUAD4

set_option maxRecDepth 20000 in
/-- The bounds are not met for other dimensions: with `nDim = 3` the gradient
loops index the 2x2 local arrays out of range, with `nDim = 1` the second
quadrature coordinate is read past the allocated row. -/
theorem accesses_out_of_bounds_other_nDim :
    (accesses_Linear 3).all (Access.inBounds 3) = false ∧
    (accesses_Linear 1).all (Access.inBounds 1) = false ∧
    Access.inBounds 3 ⟨ArrayName.Jacobian, [0, 2]⟩ = false ∧
    Access.inBounds 1 ⟨ArrayName.GaussCoord, [0, 1]⟩ = false := by
  decide

set_option maxRecDepth 20000 in
/-- C22: for a `CQUAD4` element constructed with `nDim = 2`, every indexing
expression evaluated by `ComputeGrad_Linear` and by `ComputeGrad_NonLinear`
(`GaussCoord[iGauss][0..1]`, `RefCoord[iNode][jDim]`, the 2x2 Jacobian and adjoint
arrays, the 4x2 table `dNiXj`, `GaussPoint[iGauss]`) is within the bounds of the
array as declared or as allocated by the constructor. -/
theorem ComputeGrad_accesses_in_bounds :
    (accesses_Linear 2).all (Access.inBounds 2) = true ∧
    (accesses_NonLinear 2).all (Access.inBounds 2) = true ∧
    (accesses_Linear 2).length = 556 ∧ (accesses_NonLinear 2).length = 1072 := by
  decide

end CQUAD4

end SU2
